import Mathlib

/-!
Shallow embedding of the per-connection voice pipeline of the
xiaozhi-esp32-server, covering the pieces of
`core/utils/util.py`, `core/utils/dialogue.py`, `core/handle/abortHandle.py`,
`core/handle/textHandle.py`, `core/handle/receiveAudioHandle.py`,
`core/handle/intentHandler.py`, `core/handle/iotHandle.py`,
`core/handle/sendAudioHandle.py` and `core/connection.py` that the verified
properties refer to.  Python strings are modelled as `String` / `List Char`,
audio frames as opaque `Nat` handles, and the external providers
(VAD, ASR, LLM-intent) as oracle parameters.  Each handler is translated to a
pure function from the connection state (and an inbound message) to the new
state together with the list of observable effects it performs, plus the
uncaught Python exception if it raises one.
-/

namespace XiaozhiSpec

/-! ### core/utils/util.py -/

/-- Characters accepted by Python `str.isspace` that can occur in this
pipeline: ASCII whitespace plus the no-break and ideographic spaces. -/
def pyIsSpace (c : Char) : Bool :=
  c == ' ' || c == '\t' || c == '\n' || c == '\r' || c == '\x0b' || c == '\x0c' ||
    c == ' ' || c == '　'

/-- Punctuation set of `is_punctuation_or_emoji` (util.py line 80). -/
def punctuation_set : List Char :=
  ['，', ',', '。', '.', '！', '!', '-', '－', '、']

/-- Emoji code-point ranges of `is_punctuation_or_emoji` (util.py line 91). -/
def emoji_ranges : List (Nat × Nat) :=
  [(0x1F600, 0x1F64F), (0x1F300, 0x1F5FF),
   (0x1F680, 0x1F6FF), (0x1F900, 0x1F9FF),
   (0x1FA70, 0x1FAFF), (0x2600, 0x26FF),
   (0x2700, 0x27BF)]

/-- util.py `is_punctuation_or_emoji`. -/
def is_punctuation_or_emoji (c : Char) : Bool :=
  pyIsSpace c || punctuation_set.contains c ||
    emoji_ranges.any (fun r => decide (r.1 ≤ c.toNat) && decide (c.toNat ≤ r.2))

/-- util.py `get_string_no_punctuation_or_emoji`: drop the characters
satisfying `is_punctuation_or_emoji` from both ends (the source walks a start
pointer forward and an end pointer backward; that two-pointer scan computes
exactly this double `dropWhile`). -/
def get_string_no_punctuation_or_emoji (s : List Char) : List Char :=
  ((s.dropWhile is_punctuation_or_emoji).reverse.dropWhile
      is_punctuation_or_emoji).reverse

/-- String-typed wrapper of `get_string_no_punctuation_or_emoji`. -/
def stripPunctuationEmoji (s : String) : String :=
  String.mk (get_string_no_punctuation_or_emoji s.toList)

/-- util.py line 127: the full-width punctuation characters removed by
`remove_punctuation_and_length`. -/
def full_width_punctuations : List Char :=
  ['！', '＂', '＃', '＄', '％', '＆', '＇', '（', '）', '＊', '＋', '，', '－',
   '。', '／', '：', '；', '＜', '＝', '＞', '？', '＠', '［', '＼', '］', '＾',
   '＿', '｀', '｛', '｜', '｝', '～']

/-- util.py line 128: the half-width punctuation characters removed by
`remove_punctuation_and_length` (the raw Python string also contains the
backslash and the apostrophe). -/
def half_width_punctuations : List Char :=
  ['!', '"', '#', '$', '%', '&', '\\', '\x27', '(', ')', '*', '+', ',', '-',
   '.', '/', ':', ';', '<', '=', '>', '?', '@', '[', ']', '^', '_', '\x60',
   '\x7b', '|', '\x7d', '~']

/-- Filtering stage of util.py `remove_punctuation_and_length`: removes all
full- and half-width punctuation plus half- and full-width spaces. -/
def remove_punctuation_filter (text : String) : String :=
  String.mk (text.toList.filter (fun c =>
    !(full_width_punctuations.contains c) &&
    !(half_width_punctuations.contains c) &&
    !(c == ' ') && !(c == '　')))

/-- util.py `remove_punctuation_and_length`: returns the length of the
filtered text and the filtered text, except that the literal result "Yeah"
is mapped to length 0 and the empty string. -/
def remove_punctuation_and_length (text : String) : Nat × String :=
  let result := remove_punctuation_filter text
  if result == "Yeah" then (0, "")
  else (result.length, result)

/-! ### core/handle/iotHandle.py : value model -/

/-- Python scalar values as produced by `json.loads` for JSON scalars, which
is what IoT property updates carry.  Floats are carried as rationals (only
their runtime type matters to the code under verification).  JSON arrays and
objects are not modelled; the handler compares runtime types with `type(...)`,
so they would be rejected exactly like any other non-matching type. -/
inductive PyVal
  | pint (n : Int)
  | pfloat (q : Rat)
  | pbool (b : Bool)
  | pstr (s : String)
  | pnone
deriving Repr, DecidableEq

/-- Runtime (Python) type tags for `PyVal`, mirroring `type(v)`. -/
inductive PyType
  | tInt
  | tFloat
  | tBool
  | tStr
  | tNone
deriving Repr, DecidableEq

/-- The runtime type of a value, as Python's `type(...)` sees it (`bool` is
a distinct type from `int` under `type(v) != type(w)`). -/
def PyVal.pyType : PyVal → PyType
  | .pint _ => .tInt
  | .pfloat _ => .tFloat
  | .pbool _ => .tBool
  | .pstr _ => .tStr
  | .pnone => .tNone

/-! ### core/handle/iotHandle.py : descriptors and state updates -/

/-- Declared property inside an inbound `iot` descriptor:
`{description, type}` with type ∈ {number, boolean, string}. -/
structure PropDecl where
  description : String
  type : String
deriving Repr, DecidableEq

/-- Declared method parameter inside an inbound `iot` descriptor. -/
structure ParamDecl where
  description : String
  type : String
deriving Repr, DecidableEq

/-- Declared method inside an inbound `iot` descriptor. -/
structure MethodDecl where
  description : String
  parameters : List (String × ParamDecl)
deriving Repr, DecidableEq

/-- One element of an inbound `iot.descriptors` list.  Python dicts keep
insertion order, so `properties` and `methods` are association lists. -/
structure RawDescriptor where
  name : String
  description : String
  properties : List (String × PropDecl)
  methods : List (String × MethodDecl)
deriving Repr, DecidableEq

/-- A registered property: `{name, description, value}` as built by
`IotDescriptor.__init__`. -/
structure IotProperty where
  name : String
  description : String
  value : PyVal
deriving Repr, DecidableEq

/-- A registered method parameter slot. -/
structure IotMethodParam where
  name : String
  description : String
  value : PyVal
deriving Repr, DecidableEq

/-- A registered method. -/
structure IotMethod where
  name : String
  description : String
  params : List IotMethodParam
deriving Repr, DecidableEq

/-- A registered device capability descriptor. -/
structure IotDescriptor where
  name : String
  description : String
  properties : List IotProperty
  methods : List IotMethod
deriving Repr, DecidableEq

/-- Default value of a declared type, as assigned in
`IotDescriptor.__init__`: number ↦ 0, boolean ↦ False, anything else ↦ "". -/
def defaultValueOfType (t : String) : PyVal :=
  if t == "number" then .pint 0
  else if t == "boolean" then .pbool false
  else .pstr ""

/-- Build one property record from its declaration
(`IotDescriptor.__init__`, iotHandle.py lines 40-50). -/
def initProperty (kv : String × PropDecl) : IotProperty :=
  { name := kv.1, description := kv.2.description,
    value := defaultValueOfType kv.2.type }

/-- Build one method record from its declaration
(`IotDescriptor.__init__`, iotHandle.py lines 53-66). -/
def initMethod (kv : String × MethodDecl) : IotMethod :=
  { name := kv.1, description := kv.2.description,
    params := kv.2.parameters.map (fun p =>
      { name := p.1, description := p.2.description,
        value := defaultValueOfType p.2.type }) }

/-- `IotDescriptor.__init__`: build the registered descriptor from the raw
inbound one. -/
def IotDescriptor.init (r : RawDescriptor) : IotDescriptor :=
  { name := r.name, description := r.description,
    properties := r.properties.map initProperty,
    methods := r.methods.map initMethod }

/-- One element of an inbound `iot.states` list:
`{name, state: {prop: value, ...}}`. -/
structure IotState where
  name : String
  state : List (String × PyVal)
deriving Repr, DecidableEq

/-- Inner loops of `handleIotStatus` (iotHandle.py lines 127-136): for one
property, look for the state entry with the same name; a runtime-type
mismatch against the current value drops the update, otherwise the value is
replaced. -/
def updatePropAgainstState (st : List (String × PyVal)) (p : IotProperty) :
    IotProperty :=
  match st.find? (fun kv => kv.1 == p.name) with
  | none => p
  | some kv =>
    if kv.2.pyType ≠ p.value.pyType then p
    else { p with value := kv.2 }

/-- Middle loop of `handleIotStatus`: find the first registered descriptor
with the state's name, update each of its properties, then stop (`break`). -/
def applyIotState :
    List (String × IotDescriptor) → IotState → List (String × IotDescriptor)
  | [], _ => []
  | (k, d) :: rest, s =>
    if k == s.name then
      (k, { d with properties := d.properties.map (updatePropAgainstState s.state) })
        :: rest
    else
      (k, d) :: applyIotState rest s

/-- iotHandle.py `handleIotStatus`: apply each inbound state frame entry in
order. -/
def handleIotStatus (reg : List (String × IotDescriptor))
    (states : List IotState) : List (String × IotDescriptor) :=
  states.foldl applyIotState reg

/-- Dict-style insertion used by `handleIotDescriptors`
(`conn.iot_descriptors[name] = descriptor`): replace the existing entry with
that key, or append a new one. -/
def assocSet (reg : List (String × IotDescriptor)) (k : String)
    (v : IotDescriptor) : List (String × IotDescriptor) :=
  if reg.any (fun kv => kv.1 == k) then
    reg.map (fun kv => if kv.1 == k then (k, v) else kv)
  else
    reg ++ [(k, v)]

/-- The runtime type a property declared with type string `t` is initialised
with, hence (see the theorems below) keeps forever. -/
def declPyType (t : String) : PyType :=
  if t == "number" then .tInt
  else if t == "boolean" then .tBool
  else .tStr

/-- Observable type profile of a registry: for every descriptor, the runtime
types of its properties' current values. -/
def propTypesReg (reg : List (String × IotDescriptor)) :
    List (String × List PyType) :=
  reg.map (fun kv => (kv.1, kv.2.properties.map (fun p => p.value.pyType)))

/-! ### Session state (core/connection.py `ConnectionHandler`) -/

/-- The per-connection mutable state touched by the handlers under
verification, as initialised in `ConnectionHandler.__init__`.  Audio frames
are opaque `Nat` handles; times are rationals in milliseconds; the two
`cfg_` fields carry the configuration values the handlers read. -/
structure Conn where
  session_id : String
  client_abort : Bool
  client_listen_mode : String
  client_have_voice : Bool
  client_have_voice_last_time : Rat
  client_no_voice_last_time : Rat
  client_voice_stop : Bool
  client_audio_buffer : List Nat
  asr_audio : List Nat
  asr_server_receive : Bool
  llm_finish_task : Bool
  tts_first_text_index : Int
  tts_last_text_index : Int
  iot_descriptors : List (String × IotDescriptor)
  close_after_chat : Bool
  use_function_call_mode : Bool
  cmd_exit : List String
  cfg_close_connection_no_voice_time : Rat
  cfg_iot_volume : PyVal
deriving Repr, DecidableEq

/-- Outbound JSON frames built by the handlers. -/
inductive OutMsg
  | tts (state : String) (text : Option String) (session_id : String)
  | stt (text : String) (session_id : String)
  | llmEmotion (text : String) (emotion : String) (session_id : String)
  | iotCommand (name : String) (method : String)
      (parameters : List (String × PyVal))
  | welcome
deriving Repr, DecidableEq

/-- Observable effects a handler performs, in order.  `asrCall` records the
utterance buffer handed to `conn.asr.speech_to_text` together with the value
of `conn.asr_server_receive` at the moment of the call; `submitChat` /
`submitChatWithFunctions` / `submitChatAndClose` record work submitted to the
executor (the LLM turn); `closeConnection` records `conn.close()`. -/
inductive Event
  | sendJson (m : OutMsg)
  | sendRaw (raw : String)
  | asrCall (frames : List Nat) (ingestEnabled : Bool)
  | intentDetect (text : String)
  | musicCommand (intent : String)
  | submitChat (text : String)
  | submitChatWithFunctions (text : String)
  | submitChatAndClose (text : String)
  | closeConnection
deriving Repr, DecidableEq

/-- Whether an event is the hand-off of an utterance buffer to ASR. -/
def Event.isAsrCall : Event → Bool
  | .asrCall _ _ => true
  | _ => false

/-- Uncaught Python exceptions a handler can raise: `KeyError` from
subscripting a missing dict key, `TypeError` from subscripting a
non-dict value with a string key. -/
inductive PyErr
  | keyError (key : String)
  | typeError
deriving Repr, DecidableEq

/-- Oracle values for the external collaborators consulted during one
handler invocation: the VAD verdict for the current frame, the text returned
by ASR, the intent the LLM-backed classifier yields (`none` when detection
fails or no provider is configured), and the current wall clock in ms. -/
structure Oracles where
  vad_detects_voice : Bool
  asr_text : String
  intent_result : Option String
  now_ms : Rat
deriving Repr, DecidableEq

/-- connection.py `clearSpeakStatus`: re-enable ASR ingest and reset the
first- and last-spoken segment indices to their unset value -1. -/
def clearSpeakStatus (c : Conn) : Conn :=
  { c with asr_server_receive := true,
           tts_last_text_index := -1,
           tts_first_text_index := -1 }

/-- connection.py `reset_vad_states`. -/
def reset_vad_states (c : Conn) : Conn :=
  { c with client_audio_buffer := [],
           client_have_voice := false,
           client_have_voice_last_time := 0,
           client_voice_stop := false }

/-! ### core/handle/abortHandle.py -/

/-- abortHandle.py `handleAbortMessage`: set the cancellation flag, send one
`{type:"tts", state:"stop", session_id}` frame, then `clearSpeakStatus`. -/
def handleAbortMessage (c : Conn) : Conn × List Event :=
  let c1 := { c with client_abort := true }
  (clearSpeakStatus c1, [.sendJson (.tts "stop" none c.session_id)])

/-! ### core/handle/sendAudioHandle.py : control frames -/

/-- sendAudioHandle.py `send_tts_message`: send the tts frame; state "stop"
additionally runs `clearSpeakStatus`. -/
def send_tts_message (c : Conn) (state : String) (text : Option String) :
    Conn × List Event :=
  ((if state == "stop" then clearSpeakStatus c else c),
   [.sendJson (.tts state text c.session_id)])

/-- sendAudioHandle.py `send_stt_message`: echo the recognised text (with
punctuation/emoji stripped), send the emotion cue, then a tts "start". -/
def send_stt_message (c : Conn) (text : String) : Conn × List Event :=
  let stt_text := stripPunctuationEmoji text
  let r := send_tts_message c "start" none
  (r.1,
   [.sendJson (.stt stt_text c.session_id),
    .sendJson (.llmEmotion "😊" "happy" c.session_id)] ++ r.2)

/-! ### core/handle/intentHandler.py -/

/-- Boolean substring test (Python's `needle in hay`). -/
def strContains (hay needle : String) : Bool :=
  (hay.toList.tails).any (fun t => needle.toList.isPrefixOf t)

/-- intentHandler.py `check_direct_exit`: strip punctuation from the text and
compare it, case-sensitively, with each configured `CMD_exit` entry; on a
match close the connection and report handled. -/
def check_direct_exit (c : Conn) (text : String) : Conn × List Event × Bool :=
  let stripped := (remove_punctuation_and_length text).2
  if c.cmd_exit.any (fun cmd => stripped == cmd) then
    (c, [.closeConnection], true)
  else
    (c, [], false)

/-- intentHandler.py `analyze_intent_with_llm`: consult the LLM-backed
classifier.  The network call and the JSON-or-raw parsing of its reply are
external; the oracle carries the resulting intent (`none` on failure). -/
def analyze_intent_with_llm (O : Oracles) (c : Conn) (text : String) :
    Conn × List Event × Option String :=
  (c, [.intentDetect text], O.intent_result)

/-- intentHandler.py `process_intent_result`. -/
def process_intent_result (c : Conn) (intent : String)
    (original_text : String) : Conn × List Event × Bool :=
  if strContains intent "结束聊天" then
    let r := send_stt_message c original_text
    (r.1, r.2 ++ [.submitChatAndClose original_text], true)
  else if strContains intent "播放音乐" then
    (c, [.musicCommand intent], true)
  else
    (c, [], false)

/-- intentHandler.py `handle_user_intent`. -/
def handle_user_intent (O : Oracles) (c : Conn) (text : String) :
    Conn × List Event × Bool :=
  let r1 := check_direct_exit c text
  if r1.2.2 then (r1.1, r1.2.1, true)
  else if c.use_function_call_mode then (r1.1, r1.2.1, false)
  else
    let r2 := analyze_intent_with_llm O r1.1 text
    match r2.2.2 with
    | none => (r2.1, r1.2.1 ++ r2.2.1, false)
    | some intent =>
      let r3 := process_intent_result r2.1 intent text
      (r3.1, r1.2.1 ++ r2.2.1 ++ r3.2.1, r3.2.2)

/-! ### core/handle/receiveAudioHandle.py -/

/-- receiveAudioHandle.py `startToChat`: run the intent layer; when it
handled the turn, re-enable ingest; otherwise echo the recognition and
submit the LLM chat (plain or function-calling). -/
def startToChat (O : Oracles) (c : Conn) (text : String) : Conn × List Event :=
  let r1 := handle_user_intent O c text
  if r1.2.2 then
    ({ r1.1 with asr_server_receive := true }, r1.2.1)
  else
    let r2 := send_stt_message r1.1 text
    if r2.1.use_function_call_mode then
      (r2.1, r1.2.1 ++ r2.2 ++ [.submitChatWithFunctions text])
    else
      (r2.1, r1.2.1 ++ r2.2 ++ [.submitChat text])

/-- receiveAudioHandle.py `no_voice_close_connect`. -/
def no_voice_close_connect (O : Oracles) (c : Conn) : Conn × List Event :=
  if c.client_no_voice_last_time = 0 then
    ({ c with client_no_voice_last_time := O.now_ms }, [])
  else
    let no_voice_time := O.now_ms - c.client_no_voice_last_time
    if !c.close_after_chat ∧
        no_voice_time > 1000 * c.cfg_close_connection_no_voice_time then
      let c1 := { c with close_after_chat := true, client_abort := false,
                         asr_server_receive := false }
      startToChat O c1
        "请你以‘时间过得真快’为开头，用富有感情、依依不舍的话来结束这场对话吧。"
    else
      (c, [])

/-- Keep the last `n` elements of a list (Python `xs[-n:]`). -/
def lastN (n : Nat) (xs : List Nat) : List Nat :=
  xs.drop (xs.length - n)

/-- receiveAudioHandle.py `handleAudioMessage`: the VAD gate and
end-of-utterance hand-off for one inbound binary frame. -/
def handleAudioMessage (O : Oracles) (c : Conn) (audio : Nat) :
    Conn × List Event :=
  if !c.asr_server_receive then (c, [])
  else
    let have_voice :=
      if c.client_listen_mode == "auto" then O.vad_detects_voice
      else c.client_have_voice
    if have_voice == false && c.client_have_voice == false then
      let r1 := no_voice_close_connect O c
      ({ r1.1 with asr_audio := lastN 5 (r1.1.asr_audio ++ [audio]) }, r1.2)
    else
      let c1 := { c with client_no_voice_last_time := 0,
                         asr_audio := c.asr_audio ++ [audio] }
      if c1.client_voice_stop then
        let c2 := { c1 with client_abort := false, asr_server_receive := false }
        let r3 :=
          if c2.asr_audio.length < 10 then
            ({ c2 with asr_server_receive := true }, ([] : List Event))
          else
            let evCall := Event.asrCall c2.asr_audio c2.asr_server_receive
            let text := O.asr_text
            if (remove_punctuation_and_length text).1 > 0 then
              let r4 := startToChat O c2 text
              (r4.1, evCall :: r4.2)
            else
              ({ c2 with asr_server_receive := true }, [evCall])
        (reset_vad_states { r3.1 with asr_audio := [] }, r3.2)
      else
        (c1, [])

/-! ### core/handle/iotHandle.py : descriptor registration and commands -/

/-- iotHandle.py `send_iot_conn`: emit the `{type:"iot", commands:[...]}`
frame when the named descriptor has the named method, otherwise log and
drop. -/
def send_iot_conn (c : Conn) (name method_name : String)
    (parameters : List (String × PyVal)) : List Event :=
  match c.iot_descriptors.find? (fun kv => kv.1 == name) with
  | some kv =>
    if kv.2.methods.any (fun m => m.name == method_name) then
      [.sendJson (.iotCommand name method_name parameters)]
    else []
  | none => []

/-- iotHandle.py `handleIotDescriptors`: register/replace each descriptor,
then issue the default `SetVolume` to a `Speaker` capability. -/
def handleIotDescriptors (c : Conn) (descriptors : List RawDescriptor) :
    Conn × List Event :=
  let reg := descriptors.foldl
    (fun reg d => assocSet reg d.name (IotDescriptor.init d))
    c.iot_descriptors
  let c1 := { c with iot_descriptors := reg }
  (c1, send_iot_conn c1 "Speaker" "SetVolume" [("volume", c.cfg_iot_volume)])

/-! ### core/handle/textHandle.py -/

/-- Field view of an inbound JSON object frame: the fields
`handleTextMessage` may read.  `none` models an absent key, whose subscript
access raises `KeyError`. -/
structure MsgObj where
  typeField : Option String
  mode : Option String
  state : Option String
  text : Option String
  descriptors : Option (List RawDescriptor)
  states : Option (List IotState)
deriving Repr, DecidableEq

/-- An inbound text frame after `json.loads`: malformed JSON (the parse
raised `json.JSONDecodeError`), a bare integer, a bare boolean (a Python
`bool` is a subclass of `int`, so it passes the handler's
`isinstance(msg_json, int)` test), a bare float, a bare string, a bare
null, a bare array (payload irrelevant: only its subscript behaviour is
observed), or a JSON object. -/
inductive InText
  | malformed (raw : String)
  | jsonInt (n : Int) (raw : String)
  | jsonBool (b : Bool) (raw : String)
  | jsonFloat (q : Rat) (raw : String)
  | jsonStr (s : String) (raw : String)
  | jsonNull (raw : String)
  | jsonArr (raw : String)
  | jsonObj (o : MsgObj) (raw : String)
deriving Repr, DecidableEq

/-- textHandle.py `handleTextMessage`: dispatch one inbound text frame.  The
third component is the uncaught Python exception, if any: subscripting a
missing `type` or `state` key raises `KeyError`, and subscripting a bare
float/string/null/array with `msg_json["type"]` raises `TypeError`; neither
is caught by the handler's `except json.JSONDecodeError` clause (the
session-level handler in `connection.py` then closes the websocket).
Integers — and booleans, which Python's `isinstance(msg_json, int)`
includes — are echoed back verbatim. -/
def handleTextMessage (O : Oracles) (c : Conn) (msg : InText) :
    Conn × List Event × Option PyErr :=
  match msg with
  | .malformed raw => (c, [.sendRaw raw], none)
  | .jsonInt _ raw => (c, [.sendRaw raw], none)
  | .jsonBool _ raw => (c, [.sendRaw raw], none)
  | .jsonFloat _ _raw => (c, [], some .typeError)
  | .jsonStr _ _raw => (c, [], some .typeError)
  | .jsonNull _raw => (c, [], some .typeError)
  | .jsonArr _raw => (c, [], some .typeError)
  | .jsonObj o _raw =>
    match o.typeField with
    | none => (c, [], some (.keyError "type"))
    | some t =>
      if t == "hello" then
        (c, [.sendJson .welcome], none)
      else if t == "abort" then
        let r := handleAbortMessage c
        (r.1, r.2, none)
      else if t == "listen" then
        let c1 := match o.mode with
          | some m => { c with client_listen_mode := m }
          | none => c
        match o.state with
        | none => (c1, [], some (.keyError "state"))
        | some st =>
          if st == "start" then
            ({ c1 with client_have_voice := true, client_voice_stop := false },
             [], none)
          else if st == "stop" then
            ({ c1 with client_have_voice := true, client_voice_stop := true },
             [], none)
          else if st == "detect" then
            let c2 := { c1 with asr_server_receive := false,
                                client_have_voice := false, asr_audio := [] }
            match o.text with
            | some txt =>
              let r := startToChat O c2 txt
              (r.1, r.2, none)
            | none => (c2, [], none)
          else
            (c1, [], none)
      else if t == "iot" then
        let r1 := match o.descriptors with
          | some ds => handleIotDescriptors c ds
          | none => (c, [])
        let c2 := match o.states with
          | some sts =>
            { r1.1 with iot_descriptors := handleIotStatus r1.1.iot_descriptors sts }
          | none => r1.1
        (c2, r1.2, none)
      else
        (c, [], none)

/-! ### core/handle/sendAudioHandle.py : paced emission -/

/-- sendAudioHandle.py line 17: nominal frame duration in ms. -/
def original_frame_duration : Nat := 60

/-- sendAudioHandle.py line 18, `int(original_frame_duration * 0.8)`:
the effective pacing interval, 20% shorter than nominal. -/
def adjusted_frame_duration : Nat := original_frame_duration * 8 / 10

/-- sendAudioHandle.py line 20: the trailing compensation sleep in ms,
`total_frames * (original_frame_duration - adjusted_frame_duration)`. -/
def compensation_ms (total_frames : Nat) : Nat :=
  total_frames * (original_frame_duration - adjusted_frame_duration)

/-- The pacing loop of `sendAudioMessage` (lines 22-39): each frame waits
until `start_time + play_position`, then `play_position` advances by the
adjusted frame duration.  Returns the scheduled send offsets (ms after
`start_time`) of every frame, and the final `play_position`. -/
def paceFrames (audios : List Nat) : List Nat × Nat :=
  audios.foldl
    (fun acc _ => (acc.1 ++ [acc.2], acc.2 + adjusted_frame_duration))
    ([], 0)

/-! ### core/utils/dialogue.py -/

/-- One structured tool-call record carried by an assistant message. -/
structure ToolCallRecord where
  id : String
  name : String
  arguments : String
deriving Repr, DecidableEq

/-- dialogue.py `Message`. -/
structure Message where
  role : String
  content : Option String := none
  tool_calls : Option (List ToolCallRecord) := none
  tool_call_id : Option String := none
deriving Repr, DecidableEq

/-- A message as serialised for the LLM by `Dialogue.getMessages`. -/
inductive DlgEntry
  | withToolCalls (role : String) (tool_calls : List ToolCallRecord)
  | toolResult (role : String) (tool_call_id : Option String)
      (content : Option String)
  | plain (role : String) (content : Option String)
deriving Repr, DecidableEq

/-- dialogue.py `Dialogue.getMessages` (the per-message conversion). -/
def getMessages (m : Message) : DlgEntry :=
  match m.tool_calls with
  | some tc => .withToolCalls m.role tc
  | none =>
    if m.role == "tool" then .toolResult m.role m.tool_call_id m.content
    else .plain m.role m.content

/-- dialogue.py `Dialogue.get_llm_dialogue`. -/
def get_llm_dialogue (d : List Message) : List DlgEntry :=
  d.map getMessages

/-- Python f-string rendering of a message content (`None` prints as
"None"). -/
def pyStrOfContent : Option String → String
  | some s => s
  | none => "None"

/-- dialogue.py `Dialogue.get_llm_dialogue_with_memory`: with a non-empty
memory string, the first system message is re-emitted with
`"\n\n相关记忆：\n" ++ memory` appended (note the full-width colon in the
source's f-string) and every original system message is skipped; otherwise
the dialogue passes through unchanged. -/
def get_llm_dialogue_with_memory (d : List Message)
    (memory_str : Option String) : List DlgEntry :=
  match memory_str with
  | none => get_llm_dialogue d
  | some m =>
    if m.length == 0 then get_llm_dialogue d
    else
      let head := match d.find? (fun msg => msg.role == "system") with
        | some sm =>
          [DlgEntry.plain "system"
            (some (pyStrOfContent sm.content ++ "\n\n相关记忆：\n" ++ m))]
        | none => []
      head ++ (d.filter (fun msg => !(msg.role == "system"))).map getMessages

/-! ### core/connection.py `ConnectionHandler.chat` : the segmenter
(lines 290-335).  The reply text is a list of characters; deltas are the
successive `content` strings of the LLM stream. -/

/-- A dispatched segment: the raw (pre-strip) consumed span, the stripped
text handed to TTS, and the 1-based index assigned at dispatch. -/
structure Seg where
  raw : List Char
  text : List Char
  idx : Nat
deriving Repr, DecidableEq

/-- The loop state of `ConnectionHandler.chat`: the concatenation of the
deltas so far (`"".join(response_message)`), `processed_chars`,
`text_index`, and the segments dispatched so far. -/
structure SegState where
  full : List Char
  processed : Nat
  tIndex : Nat
  segs : List Seg
deriving Repr, DecidableEq

/-- State at loop entry (connection.py lines 273-274, 291). -/
def initSegState : SegState := ⟨[], 0, 0, []⟩

/-- connection.py line 305: the five sentence terminators. -/
def punctuations : List Char := ['。', '？', '！', '；', '：']

/-- Membership in the terminator set. -/
def isSentenceTerminator (c : Char) : Bool := punctuations.contains c

/-- Index of the last sentence terminator in a character list (the source
takes the maximum of `rfind` over the five terminators; that maximum is
exactly the last position holding any terminator, or -1 = `none`). -/
def lastTerminatorPos : List Char → Option Nat
  | [] => none
  | c :: cs =>
    match lastTerminatorPos cs with
    | some p => some (p + 1)
    | none => if isSentenceTerminator c then some 0 else none

/-- One iteration of the streaming loop (connection.py lines 292-324) for a
single content delta: extend `full`, look for the last terminator in the
unprocessed suffix; when found, strip the span up to it and — if the
stripped text is non-empty — dispatch it with the next index and advance
`processed_chars` past the raw span. -/
def stepDelta (s : SegState) (d : List Char) : SegState :=
  let full := s.full ++ d
  let current := full.drop s.processed
  match lastTerminatorPos current with
  | none => { s with full := full }
  | some p =>
    let raw := current.take (p + 1)
    let txt := get_string_no_punctuation_or_emoji raw
    if txt = [] then { s with full := full }
    else
      { full := full,
        processed := s.processed + raw.length,
        tIndex := s.tIndex + 1,
        segs := s.segs ++ [Seg.mk raw txt (s.tIndex + 1)] }

/-- The loop over all LLM content deltas. -/
def chatLoopState (deltas : List (List Char)) : SegState :=
  deltas.foldl stepDelta initSegState

/-- End-of-reply tail handling (connection.py lines 326-335): strip the
remaining text and dispatch it as a final indexed segment if non-empty. -/
def flushTail (s : SegState) : SegState :=
  let remaining := s.full.drop s.processed
  if remaining = [] then s
  else
    let txt := get_string_no_punctuation_or_emoji remaining
    if txt = [] then s
    else
      { s with tIndex := s.tIndex + 1,
               segs := s.segs ++ [⟨remaining, txt, s.tIndex + 1⟩] }

/-- The whole segmentation of one reply. -/
def runChatSegmentation (deltas : List (List Char)) : SegState :=
  flushTail (chatLoopState deltas)

/-- Concatenation of the raw (pre-strip) spans of dispatched segments. -/
def segRawConcat (l : List Seg) : List Char :=
  (l.map Seg.raw).flatten

/-- Whether a character list ends with a sentence terminator. -/
def endsWithTerminator : List Char → Bool
  | [] => false
  | [c] => isSentenceTerminator c
  | _ :: c :: cs => endsWithTerminator (c :: cs)

/-! ### Concrete fixtures used to instantiate the theorems -/

/-- A freshly initialised session state, as `ConnectionHandler.__init__`
leaves it (with the sample configuration `CMD_exit = ["退出"]`,
`close_connection_no_voice_time = 120`, default IoT volume 100). -/
def conn0 : Conn :=
  { session_id := "session-0", client_abort := false,
    client_listen_mode := "auto", client_have_voice := false,
    client_have_voice_last_time := 0, client_no_voice_last_time := 0,
    client_voice_stop := false, client_audio_buffer := [], asr_audio := [],
    asr_server_receive := true, llm_finish_task := false,
    tts_first_text_index := -1, tts_last_text_index := -1,
    iot_descriptors := [], close_after_chat := false,
    use_function_call_mode := false, cmd_exit := ["退出"],
    cfg_close_connection_no_voice_time := 120,
    cfg_iot_volume := .pint 100 }

/-- A neutral oracle assignment. -/
def oracle0 : Oracles :=
  { vad_detects_voice := false, asr_text := "", intent_result := none,
    now_ms := 0 }

/-- A session in manual listen mode whose device has announced start and
stop of push-to-talk (so `client_voice_stop` is set). -/
def c5_conn : Conn :=
  { conn0 with client_listen_mode := "manual", client_have_voice := true,
               client_voice_stop := true }

/-- Like `c5_conn` but with nine frames already buffered, so the frame under
consideration is the tenth. -/
def c5_conn_long : Conn :=
  { c5_conn with asr_audio := [0, 1, 2, 3, 4, 5, 6, 7, 8] }

/-- Session used for the direct-exit scenario: nine buffered frames, ASR
about to return the exit word. -/
def c4_conn : Conn :=
  { conn0 with client_listen_mode := "manual", client_have_voice := true,
               client_voice_stop := true,
               asr_audio := [0, 1, 2, 3, 4, 5, 6, 7, 8] }

/-- Oracle whose ASR returns the configured exit command. -/
def c4_oracle : Oracles := { oracle0 with asr_text := "退出" }

/-- Session used for the "Yeah" scenario. -/
def c10_conn : Conn :=
  { conn0 with client_listen_mode := "manual", client_have_voice := true,
               client_voice_stop := true,
               asr_audio := [10, 11, 12, 13, 14, 15, 16, 17, 18] }

/-- Oracle whose ASR returns "Yeah". -/
def c10_oracle : Oracles := { oracle0 with asr_text := "Yeah" }

/-- A two-turn dialogue with one system prompt. -/
def c8_dialogue : List Message :=
  [{ role := "system", content := some "你是小智" },
   { role := "user", content := some "你好" }]

/-- The Speaker capability descriptor of the running example, declaring a
number-typed `volume` property and a boolean-typed `muted` property. -/
def speakerRaw : RawDescriptor :=
  { name := "Speaker", description := "扬声器",
    properties :=
      [("volume", { description := "当前音量值", type := "number" }),
       ("muted", { description := "是否静音", type := "boolean" })],
    methods :=
      [("SetVolume",
        { description := "设置音量",
          parameters :=
            [("volume", { description := "0到100之间的整数",
                          type := "number" })] })] }

/-- Registry holding the freshly registered Speaker descriptor. -/
def c3_registry : List (String × IotDescriptor) :=
  [("Speaker", IotDescriptor.init speakerRaw)]

/-- One inbound `iot.states` entry carrying the Python float 50.0 (a JSON
number) for the number-declared `volume` and a string for the
boolean-declared `muted`. -/
def c3_frame : IotState :=
  { name := "Speaker",
    state := [("muted", .pstr "yes"), ("volume", .pfloat 50)] }

/-- Loop invariant of the segmentation: the raw spans dispatched so far are
exactly the consumed prefix `full[0:processed]`, the consumed prefix lies
inside `full`, the running `text_index` counts the dispatched segments,
every dispatched raw span ends with a sentence terminator, and the indices
are 1, 2, ... in order. -/
def SegInv (s : SegState) : Prop :=
  segRawConcat s.segs = s.full.take s.processed ∧
  s.processed ≤ s.full.length ∧
  s.tIndex = s.segs.length ∧
  (∀ g ∈ s.segs, endsWithTerminator g.raw = true) ∧
  s.segs.map Seg.idx = List.range' 1 s.segs.length

/-! ### Supporting lemmas about the segmenter -/

/-- A reported last-terminator position lies inside the list. -/
lemma lastTerminatorPos_lt {cs : List Char} {p : Nat}
    (h : lastTerminatorPos cs = some p) : p < cs.length := by
  induction cs generalizing p with
  | nil => simp [lastTerminatorPos] at h
  | cons c cs ih =>
    rw [lastTerminatorPos] at h
    cases hrec : lastTerminatorPos cs with
    | some q =>
      rw [hrec] at h
      injection h with h
      subst h
      have := ih hrec
      simp only [List.length_cons]
      omega
    | none =>
      rw [hrec] at h
      by_cases hc : isSentenceTerminator c = true
      · rw [if_pos hc] at h
        injection h with h
        subst h
        simp
      · rw [if_neg hc] at h
        exact absurd h (by simp)

/-- The span cut at the last terminator ends with that terminator. -/
lemma endsWithTerminator_take {cs : List Char} {p : Nat}
    (h : lastTerminatorPos cs = some p) :
    endsWithTerminator (cs.take (p + 1)) = true := by
  induction cs generalizing p with
  | nil => simp [lastTerminatorPos] at h
  | cons c cs ih =>
    rw [lastTerminatorPos] at h
    cases hrec : lastTerminatorPos cs with
    | some q =>
      rw [hrec] at h
      injection h with h
      subst h
      have hq := lastTerminatorPos_lt hrec
      have hne : cs.take (q + 1) ≠ [] := by
        have hl : (cs.take (q + 1)).length = q + 1 := by
          rw [List.length_take]
          omega
        intro hnil
        rw [hnil] at hl
        simp at hl
      have htk := ih hrec
      rw [List.take_succ_cons]
      cases hcase : cs.take (q + 1) with
      | nil => exact absurd hcase hne
      | cons x xs =>
        rw [hcase] at htk
        exact htk
    | none =>
      rw [hrec] at h
      by_cases hc : isSentenceTerminator c = true
      · rw [if_pos hc] at h
        injection h with h
        subst h
        simp [endsWithTerminator, hc]
      · rw [if_neg hc] at h
        exact absurd h (by simp)

/-- The `full` component of one step always extends by the delta. -/
lemma stepDelta_full (s : SegState) (d : List Char) :
    (stepDelta s d).full = s.full ++ d := by
  unfold stepDelta
  cases hterm : lastTerminatorPos ((s.full ++ d).drop s.processed) with
  | none => simp only [hterm]
  | some p =>
    simp only [hterm]
    by_cases h : get_string_no_punctuation_or_emoji
        (((s.full ++ d).drop s.processed).take (p + 1)) = []
    · simp only [h, ite_true]
    · simp only [h, ite_false]

/-- Across the whole loop, `full` is the concatenation of the deltas. -/
lemma foldl_stepDelta_full (deltas : List (List Char)) (s : SegState) :
    (deltas.foldl stepDelta s).full = s.full ++ deltas.flatten := by
  induction deltas generalizing s with
  | nil => simp
  | cons d ds ih =>
    simp only [List.foldl_cons, List.flatten_cons]
    rw [ih, stepDelta_full, List.append_assoc]

lemma segInv_init : SegInv initSegState := by
  refine ⟨rfl, ?_, rfl, ?_, rfl⟩
  · simp [initSegState]
  · intro g hg
    simp [initSegState] at hg

lemma segInv_step (s : SegState) (d : List Char) (h : SegInv s) :
    SegInv (stepDelta s d) := by
  obtain ⟨h1, h2, h3, h4, h5⟩ := h
  unfold stepDelta
  cases hterm : lastTerminatorPos ((s.full ++ d).drop s.processed) with
  | none =>
    simp only [hterm]
    refine ⟨?_, ?_, h3, h4, h5⟩
    · rw [h1, List.take_append_of_le_length h2]
    · simp only [List.length_append]
      omega
  | some p =>
    simp only [hterm]
    by_cases htxt : get_string_no_punctuation_or_emoji
        (((s.full ++ d).drop s.processed).take (p + 1)) = []
    · simp only [htxt, ite_true]
      refine ⟨?_, ?_, h3, h4, h5⟩
      · rw [h1, List.take_append_of_le_length h2]
      · simp only [List.length_append]
        omega
    · have hp := lastTerminatorPos_lt hterm
      set cs := (s.full ++ d).drop s.processed with hcs
      set raw := cs.take (p + 1) with hraw
      set txt := get_string_no_punctuation_or_emoji raw with htxtdef
      rw [if_neg htxt]
      have hlen_cs : cs.length = (s.full ++ d).length - s.processed := by
        rw [hcs, List.length_drop]
      have hrawlen : raw.length = p + 1 := by
        rw [hraw, List.length_take]
        omega
      refine ⟨?_, ?_, ?_, ?_, ?_⟩
      · show segRawConcat (s.segs ++ [Seg.mk raw txt (s.tIndex + 1)]) =
            List.take (s.processed + raw.length) (s.full ++ d)
        rw [show segRawConcat (s.segs ++ [Seg.mk raw txt (s.tIndex + 1)]) =
              segRawConcat s.segs ++ raw from by simp [segRawConcat],
          h1, hrawlen, List.take_add, List.take_append_of_le_length h2,
          hraw, hcs]
      · show s.processed + raw.length ≤ (s.full ++ d).length
        rw [hrawlen, List.length_append]
        rw [hlen_cs, List.length_append] at hp
        omega
      · show s.tIndex + 1 = (s.segs ++ [Seg.mk raw txt (s.tIndex + 1)]).length
        simp [h3]
      · show ∀ g ∈ s.segs ++ [Seg.mk raw txt (s.tIndex + 1)],
            endsWithTerminator g.raw = true
        intro g hg
        rcases List.mem_append.mp hg with hg | hg
        · exact h4 g hg
        · simp only [List.mem_singleton] at hg
          subst hg
          show endsWithTerminator raw = true
          rw [hraw]
          exact endsWithTerminator_take hterm
      · show List.map Seg.idx (s.segs ++ [Seg.mk raw txt (s.tIndex + 1)]) =
            List.range' 1 (s.segs ++ [Seg.mk raw txt (s.tIndex + 1)]).length
        rw [List.map_append, h5, h3]
        simp only [List.map_cons, List.map_nil, List.length_append,
          List.length_cons, List.length_nil]
        have hr := @List.range'_concat 1 1 s.segs.length
        simp only [Nat.one_mul] at hr
        rw [show s.segs.length + (0 + 1) = s.segs.length + 1 from by omega,
          hr]
        simp [Nat.add_comm]

lemma segInv_foldl (deltas : List (List Char)) (s : SegState)
    (h : SegInv s) : SegInv (deltas.foldl stepDelta s) := by
  induction deltas generalizing s with
  | nil => exact h
  | cons d ds ih => exact ih _ (segInv_step s d h)

lemma segInv_chatLoop (deltas : List (List Char)) :
    SegInv (chatLoopState deltas) :=
  segInv_foldl deltas initSegState segInv_init

/-- The strip of the empty list is empty. -/
lemma strip_nil : get_string_no_punctuation_or_emoji [] = [] := rfl

/-- Observable effect of the end-of-reply tail handling on the dispatched
segment list. -/
lemma flushTail_segs (s : SegState) :
    (flushTail s).segs = s.segs ++
      (if get_string_no_punctuation_or_emoji (s.full.drop s.processed) = []
       then []
       else [⟨s.full.drop s.processed,
              get_string_no_punctuation_or_emoji (s.full.drop s.processed),
              s.tIndex + 1⟩]) := by
  unfold flushTail
  by_cases hrem : s.full.drop s.processed = []
  · simp [hrem, strip_nil]
  · simp only [hrem, ite_false]
    by_cases htxt : get_string_no_punctuation_or_emoji
        (s.full.drop s.processed) = []
    · simp [htxt]
    · simp [htxt]

/-! ### Supporting lemma about the pacing loop -/

/-- Closed form of the pacing fold: starting from accumulator `acc` and
play position `pos`, the frames are scheduled at `pos`, `pos + 48`, ... and
the final play position advances by one adjusted duration per frame. -/
lemma paceFrames_loop (fs : List Nat) (acc : List Nat) (pos : Nat) :
    fs.foldl (fun a _ => (a.1 ++ [a.2], a.2 + adjusted_frame_duration))
        (acc, pos) =
      (acc ++ (List.range fs.length).map
          (fun i => pos + i * adjusted_frame_duration),
       pos + fs.length * adjusted_frame_duration) := by
  induction fs generalizing acc pos with
  | nil => simp
  | cons f fs ih =>
    simp only [List.foldl_cons, List.length_cons]
    rw [ih]
    simp only [Prod.mk.injEq]
    constructor
    · rw [List.range_succ_eq_map]
      simp only [List.map_cons, List.map_map, Nat.zero_mul, Nat.add_zero,
        List.append_assoc, List.singleton_append]
      congr 1
      congr 1
      apply List.map_congr_left
      intro i _
      simp only [Function.comp_apply, Nat.succ_mul]
      omega
    · simp only [Nat.succ_mul]
      omega

/-! ### Supporting lemmas about IoT updates -/

/-- The default value of a declared type has the declared runtime type. -/
lemma defaultValue_pyType (t : String) :
    (defaultValueOfType t).pyType = declPyType t := by
  unfold defaultValueOfType declPyType
  by_cases h1 : (t == "number") = true <;>
    by_cases h2 : (t == "boolean") = true <;>
      simp [h1, h2, PyVal.pyType]

/-- A state update never changes the runtime type of a property value. -/
lemma updateProp_pyType (st : List (String × PyVal)) (p : IotProperty) :
    (updatePropAgainstState st p).value.pyType = p.value.pyType := by
  unfold updatePropAgainstState
  cases h : st.find? (fun kv => kv.1 == p.name) with
  | none => rfl
  | some kv =>
    simp only [h]
    by_cases hty : kv.2.pyType = p.value.pyType
    · simp [hty]
    · simp [hty]

/-- One inbound state entry preserves the type profile of the registry. -/
lemma applyIotState_propTypes (reg : List (String × IotDescriptor))
    (s : IotState) : propTypesReg (applyIotState reg s) = propTypesReg reg := by
  induction reg with
  | nil => rfl
  | cons kv rest ih =>
    obtain ⟨k, d⟩ := kv
    unfold applyIotState
    by_cases hk : (k == s.name) = true
    · simp only [hk, ite_true]
      unfold propTypesReg
      simp only [List.map_cons, List.map_map]
      congr 1
      congr 1
      apply List.map_congr_left
      intro p _
      exact updateProp_pyType s.state p
    · simp only [hk, ite_false]
      unfold propTypesReg at ih ⊢
      simp [ih]

/-- A whole states frame preserves the type profile of the registry. -/
lemma handleIotStatus_propTypes (reg : List (String × IotDescriptor))
    (states : List IotState) :
    propTypesReg (handleIotStatus reg states) = propTypesReg reg := by
  induction states generalizing reg with
  | nil => rfl
  | cons s ss ih =>
    show propTypesReg ((s :: ss).foldl applyIotState reg) = _
    rw [List.foldl_cons]
    rw [show (ss.foldl applyIotState (applyIotState reg s)) =
          handleIotStatus (applyIotState reg s) ss from rfl]
    rw [ih, applyIotState_propTypes]

/-! ### Supporting lemmas about the utterance hand-off -/

/-- The intent layer never hands audio to ASR: its event list contains no
`asrCall`. -/
lemma filter_asrCall_handle_user_intent (O : Oracles) (c : Conn)
    (text : String) :
    (handle_user_intent O c text).2.1.filter Event.isAsrCall = [] := by
  unfold handle_user_intent check_direct_exit analyze_intent_with_llm
    process_intent_result send_stt_message send_tts_message
  by_cases hexit : (c.cmd_exit.any
      (fun cmd => (remove_punctuation_and_length text).2 == cmd)) = true
  · simp [hexit, Event.isAsrCall]
  · by_cases hfc : c.use_function_call_mode = true
    · simp [hexit, hfc, Event.isAsrCall]
    · cases hint : O.intent_result with
      | none => simp [hexit, hfc, hint, Event.isAsrCall]
      | some intent =>
        by_cases hend : strContains intent "结束聊天" = true
        · simp [hexit, hfc, hint, hend, Event.isAsrCall]
        · by_cases hmusic : strContains intent "播放音乐" = true
          · simp [hexit, hfc, hint, hend, hmusic, Event.isAsrCall]
          · simp [hexit, hfc, hint, hend, hmusic, Event.isAsrCall]

/-- `startToChat` never hands audio to ASR. -/
lemma filter_asrCall_startToChat (O : Oracles) (c : Conn) (text : String) :
    (startToChat O c text).2.filter Event.isAsrCall = [] := by
  unfold startToChat
  by_cases hh : (handle_user_intent O c text).2.2 = true
  · simp [hh, filter_asrCall_handle_user_intent]
  · by_cases hfc :
        (handle_user_intent O c text).1.use_function_call_mode = true <;>
      simp [hh, hfc, send_stt_message, send_tts_message, Event.isAsrCall,
        List.filter_append, filter_asrCall_handle_user_intent]

/-- The intent layer never touches the cancellation flag. -/
lemma handle_user_intent_client_abort (O : Oracles) (c : Conn)
    (text : String) :
    (handle_user_intent O c text).1.client_abort = c.client_abort := by
  unfold handle_user_intent check_direct_exit analyze_intent_with_llm
    process_intent_result send_stt_message send_tts_message
  by_cases hexit : (c.cmd_exit.any
      (fun cmd => (remove_punctuation_and_length text).2 == cmd)) = true
  · simp [hexit]
  · by_cases hfc : c.use_function_call_mode = true
    · simp [hexit, hfc]
    · cases hint : O.intent_result with
      | none => simp [hexit, hfc, hint]
      | some intent =>
        by_cases hend : strContains intent "结束聊天" = true
        · simp [hexit, hfc, hint, hend]
        · by_cases hmusic : strContains intent "播放音乐" = true
          · simp [hexit, hfc, hint, hend, hmusic]
          · simp [hexit, hfc, hint, hend, hmusic]

/-- `startToChat` never touches the cancellation flag. -/
lemma startToChat_client_abort (O : Oracles) (c : Conn) (text : String) :
    (startToChat O c text).1.client_abort = c.client_abort := by
  unfold startToChat
  by_cases hh : (handle_user_intent O c text).2.2 = true
  · simp [hh, handle_user_intent_client_abort]
  · by_cases hfc :
        (handle_user_intent O c text).1.use_function_call_mode = true <;>
      simp [hh, hfc, send_stt_message, send_tts_message,
        handle_user_intent_client_abort]

/-! ### The claims -/

/-- C1: on an inbound "abort" frame the router sets the session's
cancellation flag, sends exactly one `{type:"tts", state:"stop", session_id}`
frame, resets both spoken-chunk indices to -1 and re-enables ASR ingest. -/
theorem C1_abort_message_effect (c : Conn) :
    handleAbortMessage c =
      ({ c with client_abort := true, asr_server_receive := true,
                tts_first_text_index := -1, tts_last_text_index := -1 },
       [Event.sendJson (.tts "stop" none c.session_id)]) := rfl

/-- C6: the effective pacing interval is 48 ms (60 ms shortened by 20%),
the frames of one segment are scheduled 48 ms apart starting at offset 0,
the trailing compensation sleep is n × 12 ms, and the pacing budget plus the
compensation equals n × 60 ms. -/
theorem C6_pacing_arithmetic (frames : List Nat) :
    adjusted_frame_duration = 48 ∧
    (paceFrames frames).1 =
      (List.range frames.length).map (fun i => i * adjusted_frame_duration) ∧
    (paceFrames frames).2 = frames.length * adjusted_frame_duration ∧
    compensation_ms frames.length = frames.length * 12 ∧
    (paceFrames frames).2 + compensation_ms frames.length =
      frames.length * original_frame_duration := by
  have h := paceFrames_loop frames [] 0
  have hpace : paceFrames frames =
      ((List.range frames.length).map (fun i => i * adjusted_frame_duration),
       frames.length * adjusted_frame_duration) := by
    rw [paceFrames, h]
    simp
  have hcomp : compensation_ms frames.length = frames.length * 12 := by
    norm_num [compensation_ms, original_frame_duration,
      adjusted_frame_duration]
  refine ⟨rfl, ?_, ?_, hcomp, ?_⟩
  · rw [hpace]
  · rw [hpace]
  · rw [hpace, hcomp]
    show frames.length * 48 + frames.length * 12 = frames.length * 60
    omega

/-- C7 counterexample: a well-formed JSON frame with the unrecognised type
"goodbye" is NOT echoed back — the router performs no effect at all — so the
claim that unknown-type frames are echoed is false. -/
theorem C7_counterexample :
    handleTextMessage oracle0 conn0
        (.jsonObj ⟨some "goodbye", none, none, none, none, none⟩
          "unknown-type-frame") =
      (conn0, [], none) := by decide

/-- C7 amended: a malformed-JSON frame is echoed back verbatim and mutates
no session state; a well-formed JSON object frame whose type field is not
one of hello/abort/listen/iot mutates no session state but is silently
ignored — it is NOT echoed back. -/
theorem C7_router_amended (O : Oracles) (c : Conn)
    (raw1 raw3 : String) (o : MsgObj) (t : String)
    (ht : o.typeField = some t)
    (hn : t ∉ (["hello", "abort", "listen", "iot"] : List String)) :
    handleTextMessage O c (.malformed raw1) = (c, [.sendRaw raw1], none) ∧
    handleTextMessage O c (.jsonObj o raw3) = (c, [], none) := by
  refine ⟨rfl, ?_⟩
  have h1 : t ≠ "hello" := by rintro rfl; simp at hn
  have h2 : t ≠ "abort" := by rintro rfl; simp at hn
  have h3 : t ≠ "listen" := by rintro rfl; simp at hn
  have h4 : t ≠ "iot" := by rintro rfl; simp at hn
  simp [handleTextMessage, ht, h1, h2, h3, h4]

/-- C7 witness: the amended router behaviour at concrete frames. -/
theorem C7_witness :
    handleTextMessage oracle0 conn0 (.malformed "not json") =
      (conn0, [.sendRaw "not json"], none) ∧
    handleTextMessage oracle0 conn0
        (.jsonObj ⟨some "status", none, none, none, none, none⟩
          "status-frame") =
      (conn0, [], none) :=
  C7_router_amended oracle0 conn0 "not json" "status-frame"
    ⟨some "status", none, none, none, none, none⟩ "status" rfl (by decide)

/-- C9 counterexample: a listen frame carrying only a mode and no state
field makes the handler raise `KeyError` (after having already updated the
listen mode), so it is not handled error-free. -/
theorem C9_counterexample :
    handleTextMessage oracle0 conn0
        (.jsonObj ⟨some "listen", some "manual", none, none, none, none⟩
          "listen-mode-frame") =
      ({ conn0 with client_listen_mode := "manual" }, [],
       some (.keyError "state")) := by decide

/-- C9 amended: a listen frame with only a mode field updates the session's
listen mode, but the handler then unconditionally subscripts the missing
state field and raises `KeyError`; the error escapes the text handler (only
`json.JSONDecodeError` is caught), so the session-level exception handler
closes the connection. -/
theorem C9_listen_mode_only_raises_keyerror (O : Oracles) (c : Conn)
    (mode raw : String) :
    handleTextMessage O c
        (.jsonObj ⟨some "listen", some mode, none, none, none, none⟩ raw) =
      ({ c with client_listen_mode := mode }, [],
       some (.keyError "state")) := by
  simp [handleTextMessage]

/-- C8 counterexample: with memory "用户爱听歌", the system turn produced by
`get_llm_dialogue_with_memory` is NOT the prompt followed by "相关记忆:\n"
and the memory (half-width colon, as the claim states); the code emits a
blank line and a full-width colon instead. -/
theorem C8_counterexample :
    get_llm_dialogue_with_memory c8_dialogue (some "用户爱听歌") ≠
      [DlgEntry.plain "system"
        (some ("你是小智" ++ "相关记忆:\n" ++ "用户爱听歌")),
       DlgEntry.plain "user" (some "你好")] ∧
    get_llm_dialogue_with_memory c8_dialogue (some "用户爱听歌") =
      [DlgEntry.plain "system" (some "你是小智\n\n相关记忆：\n用户爱听歌"),
       DlgEntry.plain "user" (some "你好")] := by decide

/-- C8 amended: with a non-empty memory string m, the dialogue sent to the
LLM starts with one system entry whose content is the original system prompt
followed by a blank line, the header "相关记忆：" (full-width colon), a
newline and m; all non-system turns follow unchanged in order; with an empty
or absent memory the dialogue passes through unmodified. -/
theorem C8_memory_prompt_amended (d : List Message) (m : String)
    (sm : Message) (hm : m.length ≠ 0)
    (hsm : d.find? (fun msg => msg.role == "system") = some sm) :
    get_llm_dialogue_with_memory d (some m) =
      DlgEntry.plain "system"
        (some (pyStrOfContent sm.content ++ "\n\n相关记忆：\n" ++ m)) ::
      (d.filter (fun msg => !(msg.role == "system"))).map getMessages ∧
    get_llm_dialogue_with_memory d none = get_llm_dialogue d ∧
    get_llm_dialogue_with_memory d (some "") = get_llm_dialogue d := by
  refine ⟨?_, rfl, rfl⟩
  have hm' : (m.length == 0) = false := by simpa using hm
  simp [get_llm_dialogue_with_memory, hm', hsm]

/-- C8 witness: the amended shape at a concrete dialogue and memory. -/
theorem C8_witness :
    get_llm_dialogue_with_memory c8_dialogue (some "记") =
      [DlgEntry.plain "system" (some "你是小智\n\n相关记忆：\n记"),
       DlgEntry.plain "user" (some "你好")] := by
  have h := C8_memory_prompt_amended c8_dialogue "记"
    { role := "system", content := some "你是小智" } (by decide) (by decide)
  rw [h.1]
  rfl

/-- C3 counterexample: in one `iot.states` frame carrying a mismatched
update (string to the boolean `muted`) and a number update (the float 50.5
to the number-declared `volume`), the code drops BOTH: the registry is left
entirely unchanged, with `volume` still 0 and `muted` still False.  The
float is a JSON number matching the declared type, so the claim that
type-correct updates to other properties in the frame still apply is
false. -/
theorem C3_counterexample :
    handleIotStatus c3_registry [c3_frame] = c3_registry ∧
    (handleIotStatus c3_registry [c3_frame]).map
        (fun kv => kv.2.properties.map (fun p => p.value)) =
      [[PyVal.pint 0, PyVal.pbool false]] := by decide

/-- C3 amended: freshly registered properties carry the runtime type derived
from their declaration (int for number, bool for boolean, str otherwise);
any sequence of state frames preserves every property's runtime type; a
state entry whose value's runtime type differs from the property's current
value — in particular a float sent to a number-declared property — is
dropped leaving the property unchanged, while an entry whose runtime type
matches is applied, each property being treated independently. -/
theorem C3_iot_type_safety_amended :
    (∀ r : RawDescriptor,
        (IotDescriptor.init r).properties.map (fun p => p.value.pyType) =
          r.properties.map (fun kv => declPyType kv.2.type)) ∧
    (∀ (reg : List (String × IotDescriptor)) (states : List IotState),
        propTypesReg (handleIotStatus reg states) = propTypesReg reg) ∧
    (∀ (st : List (String × PyVal)) (p : IotProperty) (kv : String × PyVal),
        st.find? (fun x => x.1 == p.name) = some kv →
          (kv.2.pyType ≠ p.value.pyType → updatePropAgainstState st p = p) ∧
          (kv.2.pyType = p.value.pyType →
            updatePropAgainstState st p = { p with value := kv.2 })) := by
  refine ⟨?_, handleIotStatus_propTypes, ?_⟩
  · intro r
    unfold IotDescriptor.init
    simp only [List.map_map]
    apply List.map_congr_left
    intro kv _
    exact defaultValue_pyType kv.2.type
  · intro st p kv hfind
    constructor
    · intro hne
      unfold updatePropAgainstState
      simp [hfind, hne]
    · intro heq
      unfold updatePropAgainstState
      simp [hfind, heq]

/-- C3 witness: the amended behaviour at concrete inputs — the float update
is dropped, and the Speaker registration carries the declared types. -/
theorem C3_witness :
    updatePropAgainstState [("volume", PyVal.pfloat 50)]
        { name := "volume", description := "音量", value := PyVal.pint 0 } =
      { name := "volume", description := "音量", value := PyVal.pint 0 } ∧
    (IotDescriptor.init speakerRaw).properties.map
        (fun p => p.value.pyType) =
      speakerRaw.properties.map (fun kv => declPyType kv.2.type) :=
  ⟨(C3_iot_type_safety_amended.2.2 [("volume", PyVal.pfloat 50)]
      { name := "volume", description := "音量", value := PyVal.pint 0 }
      ("volume", PyVal.pfloat 50) (by decide)).1 (by decide),
   C3_iot_type_safety_amended.1 speakerRaw⟩

/-- C4 counterexample: with `CMD_exit = ["退出"]` and ASR returning "退出",
the full end-of-utterance handling performs exactly the ASR call and the
connection close — no TTS synthesis, no spoken frame, no chat submission —
so the claim that a final spoken acknowledgement is synthesized and sent
before closing is false. -/
theorem C4_counterexample :
    (handleAudioMessage c4_oracle c4_conn 9).2 =
      [Event.asrCall [0, 1, 2, 3, 4, 5, 6, 7, 8, 9] false,
       Event.closeConnection] := by decide

/-- C4 amended: when the recognised text, after stripping punctuation and
whitespace, equals (case-sensitively) one of the configured CMD_exit
strings, no LLM call is made for the turn and the server closes the
transport immediately; no spoken acknowledgement is synthesized — the only
effect is the connection close (and the intent layer marks the turn handled,
re-enabling ASR ingest). -/
theorem C4_direct_exit_amended (O : Oracles) (c : Conn) (text : String)
    (h : (remove_punctuation_and_length text).2 ∈ c.cmd_exit) :
    startToChat O c text =
      ({ c with asr_server_receive := true }, [Event.closeConnection]) := by
  have hb : (c.cmd_exit.any
      (fun cmd => (remove_punctuation_and_length text).2 == cmd)) = true := by
    rw [List.any_eq_true]
    exact ⟨_, h, by simp⟩
  simp [startToChat, handle_user_intent, check_direct_exit, hb]

/-- C4 witness: the amended behaviour at the concrete exit command. -/
theorem C4_witness :
    startToChat oracle0 conn0 "退出" =
      ({ conn0 with asr_server_receive := true },
       [Event.closeConnection]) :=
  C4_direct_exit_amended oracle0 conn0 "退出" (by decide)

/-- C5: when `voice_stop` is set while ingest is enabled and the frame
counts as voiced, then: with fewer than 10 buffered frames the buffer is
discarded, no ASR call happens and ingest resumes; otherwise the buffer
(with the current frame appended) is handed to ASR exactly once, the call is
made while ingest is suspended (the recorded `asr_server_receive` at call
time is false), the cancellation flag ends up cleared and the buffer is
cleared. -/
theorem C5_voice_stop_behavior (O : Oracles) (c : Conn) (audio : Nat)
    (hrecv : c.asr_server_receive = true)
    (hvoice : (if c.client_listen_mode == "auto" then O.vad_detects_voice
               else c.client_have_voice) = true)
    (hstop : c.client_voice_stop = true) :
    (c.asr_audio.length + 1 < 10 →
      (handleAudioMessage O c audio).2.filter Event.isAsrCall = [] ∧
      (handleAudioMessage O c audio).1.asr_server_receive = true ∧
      (handleAudioMessage O c audio).1.asr_audio = []) ∧
    (¬ c.asr_audio.length + 1 < 10 →
      (handleAudioMessage O c audio).2.filter Event.isAsrCall =
        [Event.asrCall (c.asr_audio ++ [audio]) false] ∧
      (handleAudioMessage O c audio).1.client_abort = false ∧
      (handleAudioMessage O c audio).1.asr_audio = []) := by
  have hmain : handleAudioMessage O c audio =
      (let c1 : Conn := { c with client_no_voice_last_time := 0,
                                 asr_audio := c.asr_audio ++ [audio] }
       let c2 : Conn := { c1 with client_abort := false,
                                  asr_server_receive := false }
       let r3 :=
         if c2.asr_audio.length < 10 then
           ({ c2 with asr_server_receive := true }, ([] : List Event))
         else
           let evCall := Event.asrCall c2.asr_audio c2.asr_server_receive
           if (remove_punctuation_and_length O.asr_text).1 > 0 then
             let r4 := startToChat O c2 O.asr_text
             (r4.1, evCall :: r4.2)
           else
             ({ c2 with asr_server_receive := true }, [evCall])
       (reset_vad_states { r3.1 with asr_audio := [] }, r3.2)) := by
    unfold handleAudioMessage
    rw [hrecv, hvoice]
    simp [hstop]
  rw [hmain]
  constructor
  · intro hshort
    simp [hshort, reset_vad_states]
  · intro hlong
    by_cases hlen : 0 < (remove_punctuation_and_length O.asr_text).1
    · simp [hlong, hlen, reset_vad_states, List.filter_cons,
        Event.isAsrCall, filter_asrCall_startToChat,
        startToChat_client_abort]
    · simp [hlong, hlen, reset_vad_states, Event.isAsrCall]

/-- C5 witness: both branches of the claim at concrete sessions — a first
frame is discarded with ingest resumed, and a tenth frame triggers exactly
one ASR hand-off made with ingest suspended. -/
theorem C5_witness :
    ((handleAudioMessage oracle0 c5_conn 3).2.filter Event.isAsrCall = [] ∧
     (handleAudioMessage oracle0 c5_conn 3).1.asr_server_receive = true ∧
     (handleAudioMessage oracle0 c5_conn 3).1.asr_audio = []) ∧
    ((handleAudioMessage oracle0 c5_conn_long 9).2.filter Event.isAsrCall =
      [Event.asrCall [0, 1, 2, 3, 4, 5, 6, 7, 8, 9] false] ∧
     (handleAudioMessage oracle0 c5_conn_long 9).1.client_abort = false ∧
     (handleAudioMessage oracle0 c5_conn_long 9).1.asr_audio = []) :=
  ⟨(C5_voice_stop_behavior oracle0 c5_conn 3 rfl (by decide) rfl).1
      (by decide),
   (C5_voice_stop_behavior oracle0 c5_conn_long 9 rfl (by decide) rfl).2
      (by decide)⟩

/-- C10: a recognised text whose punctuation-stripped form is exactly "Yeah"
makes `remove_punctuation_and_length` return length 0 and empty text, and
the end-of-utterance handling then performs only the ASR call — no exit
check, no intent handling, no chat — and re-enables audio ingest. -/
theorem C10_yeah_treated_as_empty (O : Oracles) (c : Conn) (audio : Nat)
    (hrecv : c.asr_server_receive = true)
    (hvoice : (if c.client_listen_mode == "auto" then O.vad_detects_voice
               else c.client_have_voice) = true)
    (hstop : c.client_voice_stop = true)
    (hlong : ¬ c.asr_audio.length + 1 < 10)
    (htext : remove_punctuation_filter O.asr_text = "Yeah") :
    remove_punctuation_and_length O.asr_text = (0, "") ∧
    (handleAudioMessage O c audio).2 =
      [Event.asrCall (c.asr_audio ++ [audio]) false] ∧
    (handleAudioMessage O c audio).1.asr_server_receive = true := by
  have hstrip : remove_punctuation_and_length O.asr_text = (0, "") := by
    unfold remove_punctuation_and_length
    simp [htext]
  refine ⟨hstrip, ?_, ?_⟩ <;>
  · unfold handleAudioMessage
    rw [hrecv, hvoice]
    simp [hstop, hlong, hstrip, reset_vad_states]

/-- C10 witness: the concrete "Yeah" recognition on a ten-frame
utterance. -/
theorem C10_witness :
    remove_punctuation_and_length c10_oracle.asr_text = (0, "") ∧
    (handleAudioMessage c10_oracle c10_conn 19).2 =
      [Event.asrCall [10, 11, 12, 13, 14, 15, 16, 17, 18, 19] false] ∧
    (handleAudioMessage c10_oracle c10_conn 19).1.asr_server_receive =
      true :=
  C10_yeah_treated_as_empty c10_oracle c10_conn 19 rfl (by decide) rfl
    (by decide) (by decide)

/-- C2 counterexample: for the reply consisting of the single delta "。",
a terminator is seen (at position 0), yet nothing is consumed and no segment
is ever dispatched — neither during the loop nor as the end-of-reply tail,
although the remainder "。" is non-empty.  This refutes both the
prefix-up-to-the-last-terminator clause and the
remainder-emitted-exactly-once clause of the claim. -/
theorem C2_counterexample :
    (chatLoopState [['。']]).segs = [] ∧
    (runChatSegmentation [['。']]).segs = [] ∧
    (chatLoopState [['。']]).full.drop (chatLoopState [['。']]).processed =
      ['。'] ∧
    lastTerminatorPos (chatLoopState [['。']]).full = some 0 := by decide

/-- C2 amended: over any delta sequence, the raw spans consumed for
dispatched segments concatenate to exactly the consumed prefix
`full[0:processed]` of the reply (the concatenation of all deltas), each
dispatched raw span ends with a sentence terminator, a span whose stripped
text is empty is neither dispatched nor consumed, the end-of-reply tail (the
unconsumed remainder) is dispatched exactly once iff its stripped text is
non-empty, and the indices of all dispatched segments are exactly
1, 2, ... in order (strictly increasing and 1-based). -/
theorem C2_segmenter_amended (deltas : List (List Char)) :
    (chatLoopState deltas).full = deltas.flatten ∧
    segRawConcat (chatLoopState deltas).segs =
      (chatLoopState deltas).full.take (chatLoopState deltas).processed ∧
    (chatLoopState deltas).processed ≤ (chatLoopState deltas).full.length ∧
    (∀ g ∈ (chatLoopState deltas).segs,
      endsWithTerminator g.raw = true) ∧
    (runChatSegmentation deltas).segs =
      (chatLoopState deltas).segs ++
        (if get_string_no_punctuation_or_emoji
              ((chatLoopState deltas).full.drop
                (chatLoopState deltas).processed) = []
         then []
         else [Seg.mk
                ((chatLoopState deltas).full.drop
                  (chatLoopState deltas).processed)
                (get_string_no_punctuation_or_emoji
                  ((chatLoopState deltas).full.drop
                    (chatLoopState deltas).processed))
                ((chatLoopState deltas).tIndex + 1)]) ∧
    (runChatSegmentation deltas).segs.map Seg.idx =
      List.range' 1 (runChatSegmentation deltas).segs.length := by
  obtain ⟨h1, h2, h3, h4, h5⟩ := segInv_chatLoop deltas
  have hfull : (chatLoopState deltas).full = deltas.flatten := by
    rw [chatLoopState, foldl_stepDelta_full]
    rfl
  have htail := flushTail_segs (chatLoopState deltas)
  refine ⟨hfull, h1, h2, h4, htail, ?_⟩
  show (runChatSegmentation deltas).segs.map Seg.idx =
    List.range' 1 (runChatSegmentation deltas).segs.length
  rw [runChatSegmentation, htail]
  by_cases hrem : get_string_no_punctuation_or_emoji
      ((chatLoopState deltas).full.drop (chatLoopState deltas).processed) = []
  · simp only [hrem, ite_true, List.append_nil]
    exact h5
  · simp only [hrem, ite_false]
    rw [List.map_append, h5, h3]
    simp only [List.map_cons, List.map_nil, List.length_append,
      List.length_cons, List.length_nil]
    have hr := @List.range'_concat 1 1 (chatLoopState deltas).segs.length
    simp only [Nat.one_mul] at hr
    rw [show (chatLoopState deltas).segs.length + (0 + 1) =
          (chatLoopState deltas).segs.length + 1 from by omega, hr]
    simp [Nat.add_comm]

/-- C2 witness: the amended segmenter facts at the concrete reply
"你好。" ++ "再见" streamed as two deltas. -/
theorem C2_witness :
    segRawConcat (chatLoopState [['你', '好', '。'], ['再', '见']]).segs =
      (chatLoopState [['你', '好', '。'], ['再', '见']]).full.take
        (chatLoopState [['你', '好', '。'], ['再', '见']]).processed ∧
    (runChatSegmentation [['你', '好', '。'], ['再', '见']]).segs.map
        Seg.idx =
      List.range' 1
        (runChatSegmentation [['你', '好', '。'], ['再', '见']]).segs.length :=
  ⟨(C2_segmenter_amended [['你', '好', '。'], ['再', '见']]).2.1,
   (C2_segmenter_amended [['你', '好', '。'], ['再', '见']]).2.2.2.2.2⟩

end XiaozhiSpec
